import Mathlib

/-!
Verification of the claude-code-notify repository: a local notification
broker (HTTP + WebSocket server on port 3099) and a browser-extension
client. The broker is embedded from `src/server/index.js` (legacy
JavaScript) and `src/unnamed/part_007` (TypeScript server); the client
from `src/extension/src/background.ts`. Machine integers do not occur;
JavaScript numbers used here are nonnegative counters and delays,
modelled as Nat.
-/

namespace ClaudeNotify

/-! ## Shared HTTP data model

A parsed `POST /notify` body (`JSON.parse` result). `timestamp = some ""`
models a JSON body that carries an empty-string timestamp: JavaScript
treats `""` as falsy in `if (!notification.timestamp)`. A failed parse is
modelled as `none` at the handler interface. -/

structure Notification where
  type : String
  message : Option String
  timestamp : Option String
deriving DecidableEq

/-- The event object as serialized and written to listeners: after the
handler has stamped the timestamp, it is always present. -/
structure OutEvent where
  type : String
  message : Option String
  timestamp : String
deriving DecidableEq

/-- One WebSocket connection as seen by the broadcast loop: `readyState`
follows the ws numeric encoding (0 CONNECTING, 1 OPEN, 2 CLOSING,
3 CLOSED). -/
structure Conn where
  id : Nat
  readyState : Nat
deriving DecidableEq

/-- The JSON body of an HTTP response, structured (both servers build the
bodies with JSON.stringify over objects of these exact shapes). -/
inductive RespBody
  | empty
  | notifyOk (clientsNotified : Nat)
  | err (msg : String)
  | health (connectedClients : Nat) (uptime : Nat)
deriving DecidableEq

structure HttpResponse where
  status : Nat
  body : RespBody
deriving DecidableEq

/-- An HTTP request at the point the handler sees it: method, url, and for
POST /notify the JSON.parse outcome of the collected body. -/
structure Request where
  method : String
  url : String
  body : Option Notification
deriving DecidableEq

/-! ## Legacy JavaScript server (`src/server/index.js`) -/

namespace LegacyServer

/-- `const validTypes = ['permission_prompt', 'idle_prompt', 'stop']` -/
def validTypes : List String := ["permission_prompt", "idle_prompt", "stop"]

/-- `if (!notification.timestamp) notification.timestamp = new Date().toISOString()`:
a missing or falsy (empty-string) timestamp is replaced by the receipt time. -/
def stampTimestamp (t : Option String) (now : String) : String :=
  match t with
  | none => now
  | some s => if s = "" then now else s

/-- The `clients.forEach` broadcast loop: send to every connection whose
`readyState` is OPEN (1), counting the writes in `sentCount`. Returns the
(connection id, event) writes in iteration order and the count. -/
def broadcast (clients : List Conn) (ev : OutEvent) : List (Nat × OutEvent) × Nat :=
  clients.foldl
    (fun acc c => if c.readyState = 1 then (acc.1 ++ [(c.id, ev)], acc.2 + 1) else acc)
    ([], 0)

/-- The `req.on('end', ...)` handler of POST /notify: parse failure → 400
Invalid JSON payload; stamp timestamp if falsy; invalid type → 400; else
broadcast and respond 200 with the write count. -/
def handleNotifyEnd (parsed : Option Notification) (now : String) (clients : List Conn) :
    HttpResponse × List (Nat × OutEvent) :=
  match parsed with
  | none => (⟨400, .err "Invalid JSON payload"⟩, [])
  | some notification =>
    let ts := stampTimestamp notification.timestamp now
    if (validTypes.contains notification.type) = false then
      (⟨400, .err "Invalid notification type"⟩, [])
    else
      let ev : OutEvent := ⟨notification.type, notification.message, ts⟩
      let r := broadcast clients ev
      (⟨200, .notifyOk r.2⟩, r.1)

/-- The full `http.createServer` request handler: OPTIONS → 204; POST
/notify → `handleNotifyEnd`; GET /health → 200 status report; otherwise
404. The handler never mutates the client set, so it is returned
unchanged as the third component. -/
def handleRequest (req : Request) (now : String) (uptime : Nat) (clients : List Conn) :
    HttpResponse × List (Nat × OutEvent) × List Conn :=
  if req.method = "OPTIONS" then
    (⟨204, .empty⟩, [], clients)
  else if req.method = "POST" ∧ req.url = "/notify" then
    let r := handleNotifyEnd req.body now clients
    (r.1, r.2, clients)
  else if req.method = "GET" ∧ req.url = "/health" then
    (⟨200, .health clients.length uptime⟩, [], clients)
  else
    (⟨404, .err "Not found"⟩, [], clients)

end LegacyServer

/-! ## TypeScript server (`src/unnamed/part_007`), HTTP part -/

namespace TsServer

/-- `const VALID_TYPES: NotificationType[] = ['permission_prompt', 'idle_prompt', 'stop']` -/
def VALID_TYPES : List String := ["permission_prompt", "idle_prompt", "stop"]

/-- `if (!notification.timestamp) notification.timestamp = new Date().toISOString()` -/
def stampTimestamp (t : Option String) (now : String) : String :=
  match t with
  | none => now
  | some s => if s = "" then now else s

/-- The `clients.forEach` broadcast loop with its `sentCount` counter. -/
def broadcast (clients : List Conn) (ev : OutEvent) : List (Nat × OutEvent) × Nat :=
  clients.foldl
    (fun acc c => if c.readyState = 1 then (acc.1 ++ [(c.id, ev)], acc.2 + 1) else acc)
    ([], 0)

/-- The `req.on('end', ...)` handler of POST /notify. -/
def handleNotifyEnd (parsed : Option Notification) (now : String) (clients : List Conn) :
    HttpResponse × List (Nat × OutEvent) :=
  match parsed with
  | none => (⟨400, .err "Invalid JSON payload"⟩, [])
  | some notification =>
    let ts := stampTimestamp notification.timestamp now
    if (VALID_TYPES.contains notification.type) = false then
      (⟨400, .err "Invalid notification type"⟩, [])
    else
      let ev : OutEvent := ⟨notification.type, notification.message, ts⟩
      let r := broadcast clients ev
      (⟨200, .notifyOk r.2⟩, r.1)

/-- The full `http.createServer` request handler of the TypeScript server. -/
def handleRequest (req : Request) (now : String) (uptime : Nat) (clients : List Conn) :
    HttpResponse × List (Nat × OutEvent) × List Conn :=
  if req.method = "OPTIONS" then
    (⟨204, .empty⟩, [], clients)
  else if req.method = "POST" ∧ req.url = "/notify" then
    let r := handleNotifyEnd req.body now clients
    (r.1, r.2, clients)
  else if req.method = "GET" ∧ req.url = "/health" then
    (⟨200, .health clients.length uptime⟩, [], clients)
  else
    (⟨404, .err "Not found"⟩, [], clients)

end TsServer

/-! ## TypeScript broker lifecycle (`src/unnamed/part_007`)

The connection / idle-shutdown / shutdown state of the TypeScript server,
as a transition system over the module-level mutable state (`clients`,
`idleShutdownTimer`, `isShuttingDown`, the PID file and the listening
HTTP server). `close(1000, reason)` calls issued to connections are
recorded in an append-only log. -/

namespace TsBroker

/-- `const IDLE_SHUTDOWN_MS = 5 * 60 * 1000` -/
def IDLE_SHUTDOWN_MS : Nat := 5 * 60 * 1000

/-- One `client.close(code, reason)` call issued during shutdown. -/
structure CloseCall where
  conn : Nat
  code : Nat
  reason : String
deriving DecidableEq

/-- Module-level broker state: the connection set (as the list of live
connection ids in insertion order), whether the idle-shutdown timeout is
pending, the re-entrancy flag `isShuttingDown`, whether the PID file
exists, whether the HTTP/accept server is open, and the log of close
calls. -/
structure BrokerState where
  clients : List Nat
  idleShutdownTimer : Bool
  isShuttingDown : Bool
  pidFile : Bool
  acceptOpen : Bool
  closeLog : List CloseCall
deriving DecidableEq

/-- `cleanupPidFile()`: removes the PID file if present (no-op otherwise). -/
def cleanupPidFile (s : BrokerState) : BrokerState :=
  { s with pidFile := false }

/-- `shutdown()`: re-entrancy guard on `isShuttingDown`, then PID-file
cleanup, `client.close(1000, 'Server shutting down')` on every connection
in the set, and `httpServer.close()`. -/
def shutdown (s : BrokerState) : BrokerState :=
  if s.isShuttingDown then s
  else
    let s1 := { s with isShuttingDown := true }
    let s2 := cleanupPidFile s1
    let s3 := { s2 with
      closeLog := s2.closeLog ++ s2.clients.map fun c => CloseCall.mk c 1000 "Server shutting down" }
    { s3 with acceptOpen := false }

/-- `clearIdleShutdown()`: cancel the pending idle timeout, if any. -/
def clearIdleShutdown (s : BrokerState) : BrokerState :=
  { s with idleShutdownTimer := false }

/-- `scheduleIdleShutdown()`: arm the idle timeout unless one is already
pending or a shutdown is in progress. -/
def scheduleIdleShutdown (s : BrokerState) : BrokerState :=
  if s.idleShutdownTimer ∨ s.isShuttingDown then s
  else { s with idleShutdownTimer := true }

/-- The externally visible events driving the broker's lifecycle state:
a new WebSocket connection, a connection's close/error handler firing,
the idle-shutdown timeout firing, and a termination signal
(SIGINT/SIGTERM). -/
inductive BrokerEvent
  | connect (id : Nat)
  | disconnect (id : Nat)
  | timerFire
  | signal

/-- One transition of the broker.
  * `connect`: `clients.add(ws); clearIdleShutdown()` (wss connection handler).
  * `disconnect`: `clients.delete(ws); if (clients.size === 0) scheduleIdleShutdown()`
    (ws close and error handlers).
  * `timerFire`: the `setTimeout` callback: only runs while the timer is
    pending; sets `idleShutdownTimer = null`, then
    `if (clients.size === 0 && !isShuttingDown) shutdown()`.
  * `signal`: `shutdown()`. -/
def step (s : BrokerState) (e : BrokerEvent) : BrokerState :=
  match e with
  | .connect id =>
    clearIdleShutdown { s with clients := s.clients ++ [id] }
  | .disconnect id =>
    let s1 := { s with clients := s.clients.erase id }
    if s1.clients.length = 0 then scheduleIdleShutdown s1 else s1
  | .timerFire =>
    if s.idleShutdownTimer then
      let s1 := { s with idleShutdownTimer := false }
      if s1.clients.length = 0 ∧ s1.isShuttingDown = false then shutdown s1 else s1
    else s
  | .signal => shutdown s

end TsBroker

/-! ## Browser-extension client (`src/extension/src/background.ts`)

The background service worker's session state and its handlers, embedded
as pure state transformers. Timer scheduling itself (setTimeout ids) is
not part of the claims; what is modelled is every mutation of the
session state and the decision whether a browser notification is
rendered. -/

namespace Client

/-- `const RECONNECT_INITIAL_DELAY = 1000` -/
def RECONNECT_INITIAL_DELAY : Nat := 1000

/-- `const RECONNECT_MAX_DELAY = 30000` -/
def RECONNECT_MAX_DELAY : Nat := 30000

/-- `const MAX_RECENT_NOTIFICATIONS = 10` -/
def MAX_RECENT_NOTIFICATIONS : Nat := 10

/-- A message parsed from the WebSocket (`IncomingNotification` in
`types`): the wire carries `type`, optional `message`, optional
`timestamp`. -/
structure IncomingNotification where
  type : String
  message : Option String
  timestamp : Option String
deriving DecidableEq

/-- An entry of `recentNotifications` (`StoredNotification` in `types`). -/
structure StoredNotification where
  type : String
  message : Option String
  timestamp : Option String
  receivedAt : String
deriving DecidableEq

/-- User settings (`Settings` in `types/settings.ts`). -/
structure Settings where
  notificationsEnabled : Bool
  soundEnabled : Bool
  notifyOnStop : Bool
  notifyOnIdle : Bool
  darkMode : Bool
  hideDisconnectedHelp : Bool
  debugMode : Bool
deriving DecidableEq

/-- `DEFAULT_SETTINGS` from `types/settings.ts`. -/
def DEFAULT_SETTINGS : Settings :=
  ⟨true, false, true, true, false, false, false⟩

/-- The module-level session state mutated by the background script. -/
structure ClientState where
  isConnected : Bool
  reconnectDelay : Nat
  recentNotifications : List StoredNotification
  unreadCount : Nat
  lastNotificationType : Option String
deriving DecidableEq

/-- The state at script start (before `loadState` restores anything). -/
def initialState : ClientState :=
  ⟨false, RECONNECT_INITIAL_DELAY, [], 0, none⟩

/-- The housekeeping filter `data.type === 'connected' || data.type === 'pong'`
applied in `ws.onmessage`, `addRecentNotification` and `showNotification`. -/
def isHousekeeping (t : String) : Bool :=
  t = "connected" || t = "pong"

/-- The stored entry built inside `addRecentNotification`: the incoming
fields plus `receivedAt: new Date().toISOString()`. -/
def mkStored (now : String) (n : IncomingNotification) : StoredNotification :=
  ⟨n.type, n.message, n.timestamp, now⟩

/-- `addRecentNotification(notification)`: early-return on housekeeping
types; `unshift` the stored entry; `pop` when the list exceeds
`MAX_RECENT_NOTIFICATIONS`; increment `unreadCount` and remember the last
type (the badge update reads but does not change session state). -/
def addRecentNotification (now : String) (n : IncomingNotification) (s : ClientState) :
    ClientState :=
  if isHousekeeping n.type then s
  else
    let stored := mkStored now n
    let recent := stored :: s.recentNotifications
    let recent := if recent.length > MAX_RECENT_NOTIFICATIONS then recent.dropLast else recent
    { s with
      recentNotifications := recent
      unreadCount := s.unreadCount + 1
      lastNotificationType := some n.type }

/-- `NOTIFICATION_CONFIG` has exactly the three domain keys; the lookup
`NOTIFICATION_CONFIG[data.type]` is defined only for them. -/
def hasConfig (t : String) : Bool :=
  t = "permission_prompt" || t = "idle_prompt" || t = "stop"

/-- Whether `showNotification(data)` reaches `browser.notifications.create`:
false on housekeeping types, on a missing config entry, on `stop` with
`notifyOnStop` off, and on `idle_prompt` with `notifyOnIdle` off. -/
def showNotificationRenders (settings : Settings) (n : IncomingNotification) : Bool :=
  if isHousekeeping n.type then false
  else if hasConfig n.type = false then false
  else if n.type = "stop" && !settings.notifyOnStop then false
  else if n.type = "idle_prompt" && !settings.notifyOnIdle then false
  else true

/-- `ws.onmessage`: filter housekeeping first, record via
`addRecentNotification`, then stop when the global toggle is off,
otherwise hand over to `showNotification`. Returns the new state and
whether a browser notification was rendered. -/
def handleMessage (now : String) (settings : Settings) (n : IncomingNotification)
    (s : ClientState) : ClientState × Bool :=
  if isHousekeeping n.type then (s, false)
  else
    let s1 := addRecentNotification now n s
    if settings.notificationsEnabled = false then (s1, false)
    else (s1, showNotificationRenders settings n)

/-- The delay update performed at the end of `scheduleReconnect()`:
`reconnectDelay = Math.min(reconnectDelay * 2, RECONNECT_MAX_DELAY)`. -/
def nextDelay (d : Nat) : Nat :=
  min (d * 2) RECONNECT_MAX_DELAY

/-- `ws.onopen`: mark connected and reset the backoff delay to the floor. -/
def wsOnOpen (s : ClientState) : ClientState :=
  { s with isConnected := true, reconnectDelay := RECONNECT_INITIAL_DELAY }

/-- `ws.onclose`: mark disconnected and run `scheduleReconnect()`, whose
session-state effect is the backoff doubling. -/
def wsOnClose (s : ClientState) : ClientState :=
  { s with isConnected := false, reconnectDelay := nextDelay s.reconnectDelay }

/-- `clearUnreadCount()`: reset the unread counter and the last type
(the badge update reads but does not change session state). -/
def clearUnreadCount (s : ClientState) : ClientState :=
  { s with unreadCount := 0, lastNotificationType := none }

/-- `browser.notifications.onClicked` handler: clears the unread count. -/
def notificationClick (s : ClientState) : ClientState :=
  clearUnreadCount s

/-- A runtime message from the popup. `removeNotification` carries a
JavaScript number index, modelled as Int so that out-of-range negative
indices are representable. -/
inductive RuntimeMessage
  | getStatus
  | markAsRead
  | testNotification
  | reconnect
  | clearNotifications
  | removeNotification (index : Int)
deriving DecidableEq

/-- The response resolved by the `browser.runtime.onMessage` listener. -/
inductive RuntimeResponse
  | status (isConnected : Bool) (recent : List StoredNotification) (unread : Nat)
  | success
  | successWith (notifications : List StoredNotification)
deriving DecidableEq

/-- The `testNotification` payload built in the listener. -/
def testData : IncomingNotification :=
  ⟨"permission_prompt", some "This is a test notification from Claude Code Notifier", none⟩

/-- The `browser.runtime.onMessage` listener, restricted to its effect on
the session state and the resolved response. `reconnect` resets the
backoff floor and closes/reopens the socket (the transport action itself
is outside the session state). -/
def handleRuntimeMessage (now : String) (msg : RuntimeMessage) (s : ClientState) :
    ClientState × RuntimeResponse :=
  match msg with
  | .getStatus =>
    (s, .status s.isConnected s.recentNotifications s.unreadCount)
  | .markAsRead =>
    (clearUnreadCount s, .success)
  | .testNotification =>
    (addRecentNotification now testData s, .success)
  | .reconnect =>
    ({ s with reconnectDelay := RECONNECT_INITIAL_DELAY }, .success)
  | .clearNotifications =>
    (clearUnreadCount { s with recentNotifications := [] }, .success)
  | .removeNotification index =>
    if 0 ≤ index ∧ index < (s.recentNotifications.length : Int) then
      let recent := s.recentNotifications.eraseIdx index.toNat
      let unread := if 0 < s.unreadCount then max 0 (s.unreadCount - 1) else s.unreadCount
      let s1 := { s with recentNotifications := recent, unreadCount := unread }
      (s1, .successWith s1.recentNotifications)
    else
      (s, .successWith s.recentNotifications)

/-- Every handler of the background script that can touch the session
state during execution. -/
inductive ClientOp
  | message (now : String) (settings : Settings) (n : IncomingNotification)
  | runtime (now : String) (msg : RuntimeMessage)
  | click
  | opened
  | closed

/-- Apply one handler invocation to the session state. -/
def applyOp (s : ClientState) (op : ClientOp) : ClientState :=
  match op with
  | .message now settings n => (handleMessage now settings n s).1
  | .runtime now msg => (handleRuntimeMessage now msg s).1
  | .click => notificationClick s
  | .opened => wsOnOpen s
  | .closed => wsOnClose s

/-- Run a sequence of handler invocations. -/
def runOps (ops : List ClientOp) (s : ClientState) : ClientState :=
  ops.foldl applyOp s

/-- A stored entry is a domain event: never the housekeeping types. -/
def goodEntry (e : StoredNotification) : Bool :=
  !(e.type = "connected" || e.type = "pong")

/-- The C6 invariant on the session state: only domain entries, at most
`MAX_RECENT_NOTIFICATIONS` of them. -/
def Inv (s : ClientState) : Prop :=
  (∀ e ∈ s.recentNotifications, goodEntry e = true) ∧
    s.recentNotifications.length ≤ MAX_RECENT_NOTIFICATIONS

end Client

/-! ## Helper lemmas -/

/-- The broadcast fold sends exactly to the OPEN connections, in order,
and the counter equals the number of writes. -/
theorem TsServer.broadcast_eq (clients : List Conn) (ev : OutEvent) :
    TsServer.broadcast clients ev =
      ((clients.filter fun c => c.readyState = 1).map fun c => (c.id, ev),
       (clients.filter fun c => c.readyState = 1).length) := by
  have aux : ∀ (l : List Conn) (acc : List (Nat × OutEvent) × Nat),
      l.foldl
        (fun acc c => if c.readyState = 1 then (acc.1 ++ [(c.id, ev)], acc.2 + 1) else acc)
        acc =
      (acc.1 ++ ((l.filter fun c => c.readyState = 1).map fun c => (c.id, ev)),
       acc.2 + (l.filter fun c => c.readyState = 1).length) := by
    intro l
    induction l with
    | nil => intro acc; simp
    | cons c l ih =>
      intro acc
      by_cases hc : c.readyState = 1
      · simp [List.foldl_cons, hc, ih, List.filter_cons]; omega
      · simp [List.foldl_cons, hc, ih, List.filter_cons]
  simpa [TsServer.broadcast] using aux clients ([], 0)

/-! ## Theorems for the claims -/

/-- Claim C10: the legacy JavaScript server and the TypeScript server are
observably equivalent on the HTTP interface: for every request, with the
same clock, uptime and connection set, they produce the same status code
and body and write the same messages to the same open connections (and
neither mutates the connection set). -/
theorem servers_equivalent (req : Request) (now : String) (uptime : Nat)
    (clients : List Conn) :
    LegacyServer.handleRequest req now uptime clients =
      TsServer.handleRequest req now uptime clients :=
  rfl

/-- Claim C1 is false as stated: a POST /notify submission that carries
the timestamp `""` (a JSON body field the server's falsiness test treats
like a missing one) is broadcast with the receipt time instead of its
carried value, so a carried timestamp is not always preserved unchanged.
Here the submission `{type: "stop", timestamp: ""}` with one open
listener is broadcast with timestamp `"2025-06-01T00:00:00.000Z"`, which
differs from the carried `""`. -/
theorem notify_timestamp_not_preserved_on_empty :
    (TsServer.handleNotifyEnd (some ⟨"stop", none, some ""⟩)
        "2025-06-01T00:00:00.000Z" [⟨7, 1⟩]).2 =
      [(7, ⟨"stop", none, "2025-06-01T00:00:00.000Z"⟩)] ∧
    ("2025-06-01T00:00:00.000Z" : String) ≠ "" := by
  decide

/-- Claim C1 (amended): for every POST /notify submission whose body
parses as JSON and whose type is a valid one: if the submission carries
no timestamp or an empty-string timestamp, the broadcast event's
timestamp is assigned at receipt; if it carries a non-empty timestamp,
that value is preserved unchanged; the event is written exactly to the
connections in the open state, and the response is 200 with
`{success: true, clientsNotified: n}` where n is the number of
connections actually written. -/
theorem notify_valid_broadcast_spec (n : Notification) (now : String)
    (clients : List Conn)
    (hty : TsServer.VALID_TYPES.contains n.type = true) :
    TsServer.handleNotifyEnd (some n) now clients =
      (⟨200, .notifyOk (clients.filter fun c => c.readyState = 1).length⟩,
        (clients.filter fun c => c.readyState = 1).map fun c =>
          (c.id, ⟨n.type, n.message, TsServer.stampTimestamp n.timestamp now⟩)) ∧
    ((n.timestamp = none ∨ n.timestamp = some "") →
      TsServer.stampTimestamp n.timestamp now = now) ∧
    (∀ t, n.timestamp = some t → t ≠ "" →
      TsServer.stampTimestamp n.timestamp now = t) := by
  have hmem : n.type ∈ TsServer.VALID_TYPES := by simpa using hty
  refine ⟨?_, ?_, ?_⟩
  · simp [TsServer.handleNotifyEnd, hmem, TsServer.broadcast_eq]
  · rintro (h | h) <;> simp [TsServer.stampTimestamp, h]
  · intro t ht hne
    simp [TsServer.stampTimestamp, ht, hne]

/-- Witness for C1 (amended): a concrete valid submission carrying the
non-empty timestamp `"T1"`, broadcast to the two open connections of
three, preserved unchanged, response 200 with count 2. -/
theorem notify_valid_broadcast_spec_witness :
    TsServer.VALID_TYPES.contains "stop" = true ∧
    TsServer.handleNotifyEnd (some ⟨"stop", some "done", some "T1"⟩) "NOW"
        [⟨1, 1⟩, ⟨2, 0⟩, ⟨3, 1⟩] =
      (⟨200, .notifyOk 2⟩,
        [(1, ⟨"stop", some "done", "T1"⟩), (3, ⟨"stop", some "done", "T1"⟩)]) ∧
    TsServer.stampTimestamp (some "T1") "NOW" = "T1" :=
  ⟨by decide,
    (notify_valid_broadcast_spec ⟨"stop", some "done", some "T1"⟩ "NOW"
      [⟨1, 1⟩, ⟨2, 0⟩, ⟨3, 1⟩] (by decide)).1,
    (notify_valid_broadcast_spec ⟨"stop", some "done", some "T1"⟩ "NOW"
      [⟨1, 1⟩, ⟨2, 0⟩, ⟨3, 1⟩] (by decide)).2.2 "T1" rfl (by decide)⟩

/-- Claim C2: a POST /notify body that does not parse gets 400
`{error: "Invalid JSON payload"}`; one that parses with an invalid type
gets 400 `{error: "Invalid notification type"}`; in both cases nothing is
written to any listener and the connection set is unchanged. -/
theorem notify_invalid_spec (now : String) (uptime : Nat) (clients : List Conn)
    (n : Notification)
    (hty : TsServer.VALID_TYPES.contains n.type = false) :
    TsServer.handleRequest ⟨"POST", "/notify", none⟩ now uptime clients =
      (⟨400, .err "Invalid JSON payload"⟩, [], clients) ∧
    TsServer.handleRequest ⟨"POST", "/notify", some n⟩ now uptime clients =
      (⟨400, .err "Invalid notification type"⟩, [], clients) := by
  have hmem : n.type ∉ TsServer.VALID_TYPES := by simpa using hty
  constructor
  · rfl
  · simp [TsServer.handleRequest, TsServer.handleNotifyEnd, hmem]

/-- Witness for C2: the concrete unparseable body and the concrete body
`{type: "bogus"}` with one open connection. -/
theorem notify_invalid_spec_witness :
    TsServer.VALID_TYPES.contains "bogus" = false ∧
    (TsServer.handleRequest ⟨"POST", "/notify", none⟩ "NOW" 5 [⟨1, 1⟩] =
      (⟨400, .err "Invalid JSON payload"⟩, [], [⟨1, 1⟩]) ∧
    TsServer.handleRequest ⟨"POST", "/notify", some ⟨"bogus", none, none⟩⟩ "NOW" 5 [⟨1, 1⟩] =
      (⟨400, .err "Invalid notification type"⟩, [], [⟨1, 1⟩])) :=
  ⟨by decide, notify_invalid_spec "NOW" 5 [⟨1, 1⟩] ⟨"bogus", none, none⟩ (by decide)⟩

/-- Claim C3: when a disconnect drops the connection count of a running
broker to zero, the grace timer (fixed at 5 minutes) is pending
afterwards; when the timer fires with zero connections on a running
broker, the broker shuts down and its PID file is gone; a new connection
registering while the timer is pending with zero connections cancels the
pending timer; and the idle timer firing never shuts the broker down
while at least one connection is registered. -/
theorem idle_shutdown_spec (s1 s2 s3 s4 : TsBroker.BrokerState) (id : Nat)
    (h1run : s1.isShuttingDown = false)
    (h1z : (TsBroker.step s1 (.disconnect id)).clients = [])
    (h2t : s2.idleShutdownTimer = true)
    (h2z : s2.clients = [])
    (h2run : s2.isShuttingDown = false)
    (h3c : s3.clients ≠ [])
    (h4t : s4.idleShutdownTimer = true)
    (h4z : s4.clients = []) :
    (TsBroker.step s1 (.disconnect id)).idleShutdownTimer = true ∧
    (TsBroker.step s2 .timerFire).isShuttingDown = true ∧
    (TsBroker.step s2 .timerFire).pidFile = false ∧
    (TsBroker.step s4 (.connect id)).idleShutdownTimer = false ∧
    (TsBroker.step s3 .timerFire).isShuttingDown = s3.isShuttingDown ∧
    TsBroker.IDLE_SHUTDOWN_MS = 5 * 60 * 1000 := by
  refine ⟨?_, ?_, ?_, ?_, ?_, rfl⟩
  · have hz : (s1.clients.erase id).length = 0 := by
      have := h1z
      simp [TsBroker.step, TsBroker.scheduleIdleShutdown] at this
      split at this <;> simp_all
    by_cases ht : s1.idleShutdownTimer <;>
      simp [TsBroker.step, TsBroker.scheduleIdleShutdown, hz, ht, h1run]
  · simp [TsBroker.step, TsBroker.shutdown, TsBroker.cleanupPidFile, h2t, h2z, h2run]
  · simp [TsBroker.step, TsBroker.shutdown, TsBroker.cleanupPidFile, h2t, h2z, h2run]
  · simp [TsBroker.step, TsBroker.clearIdleShutdown]
  · have hlen : s3.clients.length ≠ 0 := by simpa using h3c
    by_cases ht : s3.idleShutdownTimer <;>
      simp [TsBroker.step, ht, hlen]

/-- Witness for C3: a running broker whose only connection (id 4)
disconnects; a running broker with an armed timer and no connections when
the timer fires; a broker with one connection (id 9); and a broker with
an armed timer and no connections receiving a new connection, which
cancels the timer. -/
theorem idle_shutdown_spec_witness :
    (⟨[4], false, false, true, true, []⟩ : TsBroker.BrokerState).isShuttingDown = false ∧
    (TsBroker.step ⟨[4], false, false, true, true, []⟩ (.disconnect 4)).clients = [] ∧
    (⟨[], true, false, true, true, []⟩ : TsBroker.BrokerState).idleShutdownTimer = true ∧
    (⟨[], true, false, true, true, []⟩ : TsBroker.BrokerState).clients = [] ∧
    (⟨[], true, false, true, true, []⟩ : TsBroker.BrokerState).isShuttingDown = false ∧
    (⟨[9], true, false, true, true, []⟩ : TsBroker.BrokerState).clients ≠ [] ∧
    (⟨[], true, false, true, true, []⟩ : TsBroker.BrokerState).idleShutdownTimer = true ∧
    (⟨[], true, false, true, true, []⟩ : TsBroker.BrokerState).clients = [] ∧
    ((TsBroker.step ⟨[4], false, false, true, true, []⟩ (.disconnect 4)).idleShutdownTimer = true ∧
     (TsBroker.step ⟨[], true, false, true, true, []⟩ .timerFire).isShuttingDown = true ∧
     (TsBroker.step ⟨[], true, false, true, true, []⟩ .timerFire).pidFile = false ∧
     (TsBroker.step ⟨[], true, false, true, true, []⟩ (.connect 4)).idleShutdownTimer = false ∧
     (TsBroker.step ⟨[9], true, false, true, true, []⟩ .timerFire).isShuttingDown =
       (⟨[9], true, false, true, true, []⟩ : TsBroker.BrokerState).isShuttingDown ∧
     TsBroker.IDLE_SHUTDOWN_MS = 5 * 60 * 1000) :=
  ⟨by decide, by decide, by decide, by decide, by decide, by decide, by decide, by decide,
    idle_shutdown_spec ⟨[4], false, false, true, true, []⟩
      ⟨[], true, false, true, true, []⟩ ⟨[9], true, false, true, true, []⟩
      ⟨[], true, false, true, true, []⟩ 4
      (by decide) (by decide) (by decide) (by decide) (by decide) (by decide)
      (by decide) (by decide)⟩

/-- Claim C4: the first shutdown trigger on a broker not already shutting
down marks it shutting-down, logs a close with the normal-closure code
1000 for every connection in the set, removes the PID file and closes the
accept channel; a second trigger is a no-op, so the state after two
triggers equals the state after one. -/
theorem shutdown_idempotent_spec (s : TsBroker.BrokerState)
    (h : s.isShuttingDown = false) :
    (TsBroker.shutdown s).isShuttingDown = true ∧
    (TsBroker.shutdown s).closeLog =
      s.closeLog ++ s.clients.map (fun c => TsBroker.CloseCall.mk c 1000 "Server shutting down") ∧
    (TsBroker.shutdown s).pidFile = false ∧
    (TsBroker.shutdown s).acceptOpen = false ∧
    TsBroker.shutdown (TsBroker.shutdown s) = TsBroker.shutdown s := by
  refine ⟨?_, ?_, ?_, ?_, ?_⟩ <;>
    simp [TsBroker.shutdown, TsBroker.cleanupPidFile, h]

/-- Witness for C4: a broker with two live connections, not shutting
down; one trigger closes both with code 1000, removes the PID file,
closes the accept channel, and a second trigger changes nothing. -/
theorem shutdown_idempotent_spec_witness :
    (⟨[1, 2], false, false, true, true, []⟩ : TsBroker.BrokerState).isShuttingDown = false ∧
    ((TsBroker.shutdown ⟨[1, 2], false, false, true, true, []⟩).isShuttingDown = true ∧
     (TsBroker.shutdown ⟨[1, 2], false, false, true, true, []⟩).closeLog =
       [] ++ [1, 2].map (fun c => TsBroker.CloseCall.mk c 1000 "Server shutting down") ∧
     (TsBroker.shutdown ⟨[1, 2], false, false, true, true, []⟩).pidFile = false ∧
     (TsBroker.shutdown ⟨[1, 2], false, false, true, true, []⟩).acceptOpen = false ∧
     TsBroker.shutdown (TsBroker.shutdown ⟨[1, 2], false, false, true, true, []⟩) =
       TsBroker.shutdown ⟨[1, 2], false, false, true, true, []⟩) :=
  ⟨by decide, shutdown_idempotent_spec ⟨[1, 2], false, false, true, true, []⟩ (by decide)⟩

/-- Iterating the close handler iterates the delay update on the stored
delay. -/
theorem Client.wsOnClose_iterate_delay (N : Nat) (s : Client.ClientState) :
    (Client.wsOnClose^[N] s).reconnectDelay =
      Client.nextDelay^[N] s.reconnectDelay := by
  induction N generalizing s with
  | zero => rfl
  | succ k ih =>
    rw [Function.iterate_succ_apply, Function.iterate_succ_apply, ih]
    rfl

/-- Closed form of the doubling-with-ceiling recurrence from the floor. -/
theorem Client.nextDelay_iterate_floor (N : Nat) :
    Client.nextDelay^[N] Client.RECONNECT_INITIAL_DELAY =
      min (Client.RECONNECT_INITIAL_DELAY * 2 ^ N) Client.RECONNECT_MAX_DELAY := by
  induction N with
  | zero =>
    simp [Client.RECONNECT_INITIAL_DELAY, Client.RECONNECT_MAX_DELAY]
  | succ k ih =>
    rw [Function.iterate_succ_apply', ih]
    simp only [Client.nextDelay, Client.RECONNECT_INITIAL_DELAY,
      Client.RECONNECT_MAX_DELAY, pow_succ]
    generalize (2 : Nat) ^ k = a
    ring_nf
    omega

/-- Claim C5: in the client reconnection state machine, starting from the
floor delay of 1000 ms, after N consecutive connection failures the
stored backoff delay equals `min(1000 * 2 ^ N, 30000)` ms, and a
successful open immediately resets the delay to the 1000 ms floor. -/
theorem reconnect_backoff_spec (N : Nat) (s t : Client.ClientState)
    (hs : s.reconnectDelay = Client.RECONNECT_INITIAL_DELAY) :
    (Client.wsOnClose^[N] s).reconnectDelay =
      min (Client.RECONNECT_INITIAL_DELAY * 2 ^ N) Client.RECONNECT_MAX_DELAY ∧
    (Client.wsOnOpen t).reconnectDelay = Client.RECONNECT_INITIAL_DELAY := by
  constructor
  · rw [Client.wsOnClose_iterate_delay, hs, Client.nextDelay_iterate_floor]
  · rfl

/-- Witness for C5: six consecutive failures from the initial state leave
the stored delay at `min(1000 * 64, 30000) = 30000` ms, and a successful
open resets it to 1000 ms. -/
theorem reconnect_backoff_spec_witness :
    Client.initialState.reconnectDelay = Client.RECONNECT_INITIAL_DELAY ∧
    ((Client.wsOnClose^[6] Client.initialState).reconnectDelay =
      min (Client.RECONNECT_INITIAL_DELAY * 2 ^ 6) Client.RECONNECT_MAX_DELAY ∧
    (Client.wsOnOpen Client.initialState).reconnectDelay =
      Client.RECONNECT_INITIAL_DELAY) :=
  ⟨by decide, reconnect_backoff_spec 6 Client.initialState Client.initialState (by decide)⟩

/-- Claim C7 is false as stated: an incoming `stop` event with
`notifyOnStop` disabled (global toggle on) is recorded in
`recentNotifications` and not rendered, yet `unreadCount` rises from 0 to
1 — the increment happens at recording time, not at the render step. -/
theorem suppressed_event_increments_unread :
    Client.initialState.unreadCount = 0 ∧
    Client.handleMessage "T0" ⟨true, false, false, true, false, false, false⟩
        ⟨"stop", some "done", none⟩ Client.initialState =
      (⟨false, Client.RECONNECT_INITIAL_DELAY,
        [⟨"stop", some "done", none, "T0"⟩], 1, some "stop"⟩, false) := by
  constructor
  · rfl
  · decide

/-- Claim C7 (amended): for every incoming domain event whose kind is
individually disabled (`notifyOnIdle` for idle_prompt, `notifyOnStop` for
stop) or which arrives while the global notifications toggle is off, the
event is appended to `recentNotifications` and no notification is
rendered, and `unreadCount` is incremented by 1 at recording time — every
recorded event increments it, whether or not it is rendered. -/
theorem notification_gate_suppression_spec (now : String)
    (settings : Client.Settings) (n : Client.IncomingNotification)
    (s : Client.ClientState)
    (hdom : Client.isHousekeeping n.type = false)
    (hsupp : settings.notificationsEnabled = false ∨
      (n.type = "stop" ∧ settings.notifyOnStop = false) ∨
      (n.type = "idle_prompt" ∧ settings.notifyOnIdle = false)) :
    (Client.handleMessage now settings n s).1 =
      Client.addRecentNotification now n s ∧
    (Client.handleMessage now settings n s).2 = false ∧
    (Client.addRecentNotification now n s).unreadCount = s.unreadCount + 1 ∧
    (Client.addRecentNotification now n s).recentNotifications.head? =
      some (Client.mkStored now n) := by
  refine ⟨?_, ?_, ?_, ?_⟩
  · by_cases he : settings.notificationsEnabled = false <;>
      simp [Client.handleMessage, hdom, he]
  · by_cases he : settings.notificationsEnabled = false
    · simp [Client.handleMessage, hdom, he]
    · rcases hsupp with h | ⟨ht, h⟩ | ⟨ht, h⟩
      · exact absurd h he
      · simp [Client.handleMessage, Client.showNotificationRenders,
          Client.isHousekeeping, Client.hasConfig, hdom, he, ht, h]
      · simp [Client.handleMessage, Client.showNotificationRenders,
          Client.isHousekeeping, Client.hasConfig, hdom, he, ht, h]
  · simp [Client.addRecentNotification, hdom]
  · simp only [Client.addRecentNotification, hdom, Bool.false_eq_true,
      if_false]
    split
    · rename_i hlong
      have h1 : 1 < (Client.mkStored now n :: s.recentNotifications).length := by
        simp only [List.length_cons] at hlong ⊢
        simp only [Client.MAX_RECENT_NOTIFICATIONS] at hlong
        omega
      rw [List.head?_dropLast, if_pos h1]
      rfl
    · rfl

/-- Witness for C7 (amended): a concrete `stop` event with `notifyOnStop`
off arriving at the initial state. -/
theorem notification_gate_suppression_spec_witness :
    Client.isHousekeeping "stop" = false ∧
    (((true : Bool), false, false, true, false, false, false) =
      ((true : Bool), false, false, true, false, false, false)) ∧
    ((Client.handleMessage "T0" ⟨true, false, false, true, false, false, false⟩
        ⟨"stop", some "done", none⟩ Client.initialState).1 =
      Client.addRecentNotification "T0" ⟨"stop", some "done", none⟩ Client.initialState ∧
    (Client.handleMessage "T0" ⟨true, false, false, true, false, false, false⟩
        ⟨"stop", some "done", none⟩ Client.initialState).2 = false ∧
    (Client.addRecentNotification "T0" ⟨"stop", some "done", none⟩
        Client.initialState).unreadCount = Client.initialState.unreadCount + 1 ∧
    (Client.addRecentNotification "T0" ⟨"stop", some "done", none⟩
        Client.initialState).recentNotifications.head? =
      some (Client.mkStored "T0" ⟨"stop", some "done", none⟩)) :=
  ⟨by decide, rfl,
    notification_gate_suppression_spec "T0"
      ⟨true, false, false, true, false, false, false⟩
      ⟨"stop", some "done", none⟩ Client.initialState (by decide)
      (Or.inr (Or.inl ⟨rfl, rfl⟩))⟩

/-- Claim C8: acknowledgement — a `markAsRead` request from the popup or
a click on a rendered notification — resets `unreadCount` to 0 and leaves
`recentNotifications` exactly as it was. -/
theorem acknowledgement_spec (now : String) (s : Client.ClientState) :
    Client.handleRuntimeMessage now .markAsRead s =
      (Client.clearUnreadCount s, .success) ∧
    (Client.clearUnreadCount s).unreadCount = 0 ∧
    (Client.clearUnreadCount s).recentNotifications = s.recentNotifications ∧
    Client.notificationClick s = Client.clearUnreadCount s := by
  exact ⟨rfl, rfl, rfl, rfl⟩

/-- Claim C9: a `removeNotification` request with an in-range index i
removes exactly the entry at position i (the others keep their relative
order), decreases a positive `unreadCount` by exactly 1 (a zero count
stays 0 — in particular it never goes below 0), and responds with success
and the resulting list; an out-of-range index leaves the state unchanged
and responds with success and the unchanged list. -/
theorem remove_notification_spec (now : String) (s : Client.ClientState)
    (i j : Int)
    (hi0 : 0 ≤ i)
    (hilen : i < (s.recentNotifications.length : Int))
    (hj : ¬ (0 ≤ j ∧ j < (s.recentNotifications.length : Int))) :
    (Client.handleRuntimeMessage now (.removeNotification i) s).1.recentNotifications =
      s.recentNotifications.take i.toNat ++ s.recentNotifications.drop (i.toNat + 1) ∧
    (Client.handleRuntimeMessage now (.removeNotification i) s).1.recentNotifications.length =
      s.recentNotifications.length - 1 ∧
    (Client.handleRuntimeMessage now (.removeNotification i) s).1.unreadCount =
      s.unreadCount - 1 ∧
    (Client.handleRuntimeMessage now (.removeNotification i) s).2 =
      .successWith
        ((Client.handleRuntimeMessage now (.removeNotification i) s).1.recentNotifications) ∧
    Client.handleRuntimeMessage now (.removeNotification j) s =
      (s, .successWith s.recentNotifications) := by
  have hin : 0 ≤ i ∧ i < (s.recentNotifications.length : Int) := ⟨hi0, hilen⟩
  have hlt : i.toNat < s.recentNotifications.length := by omega
  refine ⟨?_, ?_, ?_, ?_, ?_⟩
  · simp [Client.handleRuntimeMessage, hin, List.eraseIdx_eq_take_drop_succ]
  · simp [Client.handleRuntimeMessage, hin, List.length_eraseIdx_of_lt hlt]
  · simp [Client.handleRuntimeMessage, hin, Nat.zero_max]
    intro h0
    omega
  · simp [Client.handleRuntimeMessage, hin]
  · simp [Client.handleRuntimeMessage, hj]

/-- Witness for C9: a three-entry list with `unreadCount = 2`; removing
index 1 keeps entries 0 and 2 in order and drops the count to 1; the
out-of-range index -1 changes nothing. -/
theorem remove_notification_spec_witness :
    (0 : Int) ≤ 1 ∧
    (1 : Int) <
      ((Client.ClientState.mk true 1000
        [⟨"stop", some "m1", none, "T1"⟩, ⟨"idle_prompt", none, none, "T2"⟩,
         ⟨"permission_prompt", none, none, "T3"⟩] 2 none).recentNotifications.length : Int) ∧
    ¬ ((0 : Int) ≤ -1 ∧
      (-1 : Int) <
        ((Client.ClientState.mk true 1000
          [⟨"stop", some "m1", none, "T1"⟩, ⟨"idle_prompt", none, none, "T2"⟩,
           ⟨"permission_prompt", none, none, "T3"⟩] 2 none).recentNotifications.length : Int)) ∧
    ((Client.handleRuntimeMessage "T9" (.removeNotification 1)
        (Client.ClientState.mk true 1000
          [⟨"stop", some "m1", none, "T1"⟩, ⟨"idle_prompt", none, none, "T2"⟩,
           ⟨"permission_prompt", none, none, "T3"⟩] 2 none)).1.recentNotifications =
      [⟨"stop", some "m1", none, "T1"⟩] ++ [⟨"permission_prompt", none, none, "T3"⟩] ∧
    (Client.handleRuntimeMessage "T9" (.removeNotification 1)
        (Client.ClientState.mk true 1000
          [⟨"stop", some "m1", none, "T1"⟩, ⟨"idle_prompt", none, none, "T2"⟩,
           ⟨"permission_prompt", none, none, "T3"⟩] 2 none)).1.recentNotifications.length = 2 ∧
    (Client.handleRuntimeMessage "T9" (.removeNotification 1)
        (Client.ClientState.mk true 1000
          [⟨"stop", some "m1", none, "T1"⟩, ⟨"idle_prompt", none, none, "T2"⟩,
           ⟨"permission_prompt", none, none, "T3"⟩] 2 none)).1.unreadCount = 1 ∧
    (Client.handleRuntimeMessage "T9" (.removeNotification 1)
        (Client.ClientState.mk true 1000
          [⟨"stop", some "m1", none, "T1"⟩, ⟨"idle_prompt", none, none, "T2"⟩,
           ⟨"permission_prompt", none, none, "T3"⟩] 2 none)).2 =
      .successWith
        ((Client.handleRuntimeMessage "T9" (.removeNotification 1)
          (Client.ClientState.mk true 1000
            [⟨"stop", some "m1", none, "T1"⟩, ⟨"idle_prompt", none, none, "T2"⟩,
             ⟨"permission_prompt", none, none, "T3"⟩] 2 none)).1.recentNotifications) ∧
    Client.handleRuntimeMessage "T9" (.removeNotification (-1))
        (Client.ClientState.mk true 1000
          [⟨"stop", some "m1", none, "T1"⟩, ⟨"idle_prompt", none, none, "T2"⟩,
           ⟨"permission_prompt", none, none, "T3"⟩] 2 none) =
      (Client.ClientState.mk true 1000
          [⟨"stop", some "m1", none, "T1"⟩, ⟨"idle_prompt", none, none, "T2"⟩,
           ⟨"permission_prompt", none, none, "T3"⟩] 2 none,
        .successWith
          [⟨"stop", some "m1", none, "T1"⟩, ⟨"idle_prompt", none, none, "T2"⟩,
           ⟨"permission_prompt", none, none, "T3"⟩])) :=
  ⟨by decide, by decide, by decide,
    remove_notification_spec "T9"
      (Client.ClientState.mk true 1000
        [⟨"stop", some "m1", none, "T1"⟩, ⟨"idle_prompt", none, none, "T2"⟩,
         ⟨"permission_prompt", none, none, "T3"⟩] 2 none) 1 (-1)
      (by decide) (by decide) (by decide)⟩

/-- The session state returned by `ws.onmessage` is either untouched
(housekeeping) or the one produced by `addRecentNotification`. -/
theorem Client.handleMessage_fst (now : String) (settings : Client.Settings)
    (n : Client.IncomingNotification) (s : Client.ClientState) :
    (Client.handleMessage now settings n s).1 =
      if Client.isHousekeeping n.type then s
      else Client.addRecentNotification now n s := by
  by_cases hk : Client.isHousekeeping n.type
  · simp [Client.handleMessage, hk]
  · by_cases he : settings.notificationsEnabled = false <;>
      simp [Client.handleMessage, hk, he]

/-- `addRecentNotification` preserves the C6 invariant. -/
theorem Client.addRecentNotification_inv (now : String)
    (n : Client.IncomingNotification) (s : Client.ClientState)
    (h : Client.Inv s) : Client.Inv (Client.addRecentNotification now n s) := by
  obtain ⟨hg, hl⟩ := h
  by_cases hk : Client.isHousekeeping n.type
  · simp only [Client.addRecentNotification, hk, if_true]
    exact ⟨hg, hl⟩
  · rw [Bool.not_eq_true] at hk
    have hgood : Client.goodEntry (Client.mkStored now n) = true := by
      simp only [Client.goodEntry, Client.mkStored, Client.isHousekeeping] at hk ⊢
      simp only [hk, Bool.not_false]
    simp only [Client.addRecentNotification, hk, Bool.false_eq_true, if_false]
    refine ⟨?_, ?_⟩
    · intro e he
      have hmem : e ∈ Client.mkStored now n :: s.recentNotifications := by
        split at he
        · exact (List.dropLast_sublist _).subset he
        · exact he
      rcases List.mem_cons.mp hmem with rfl | hmem
      · exact hgood
      · exact hg e hmem
    · split
      · simp only [List.length_dropLast, List.length_cons]
        omega
      · rename_i hshort
        simp only [List.length_cons] at hshort ⊢
        simp only [Client.MAX_RECENT_NOTIFICATIONS] at hshort hl ⊢
        omega

/-- Every handler of the background script preserves the C6 invariant. -/
theorem Client.applyOp_inv (s : Client.ClientState) (op : Client.ClientOp)
    (h : Client.Inv s) : Client.Inv (Client.applyOp s op) := by
  obtain ⟨hg, hl⟩ := h
  cases op with
  | message now settings n =>
    have := Client.handleMessage_fst now settings n s
    simp only [Client.applyOp, this]
    split
    · exact ⟨hg, hl⟩
    · exact Client.addRecentNotification_inv now n s ⟨hg, hl⟩
  | runtime now msg =>
    cases msg with
    | getStatus => exact ⟨hg, hl⟩
    | markAsRead => exact ⟨hg, hl⟩
    | testNotification =>
      exact Client.addRecentNotification_inv now Client.testData s ⟨hg, hl⟩
    | reconnect => exact ⟨hg, hl⟩
    | clearNotifications =>
      refine ⟨?_, ?_⟩ <;>
        simp [Client.applyOp, Client.handleRuntimeMessage, Client.clearUnreadCount]
    | removeNotification idx =>
      simp only [Client.applyOp, Client.handleRuntimeMessage]
      split
      · refine ⟨?_, ?_⟩
        · intro e he
          exact hg e (List.eraseIdx_subset _ _ he)
        · exact le_trans (List.length_eraseIdx_le _ _) hl
      · exact ⟨hg, hl⟩
  | click => exact ⟨hg, hl⟩
  | opened => exact ⟨hg, hl⟩
  | closed => exact ⟨hg, hl⟩

/-- The initial session state satisfies the C6 invariant. -/
theorem Client.initialState_inv : Client.Inv Client.initialState :=
  ⟨by intro e he; simp [Client.initialState] at he,
   by simp [Client.initialState, Client.MAX_RECENT_NOTIFICATIONS]⟩

/-- Any sequence of handler invocations preserves the C6 invariant. -/
theorem Client.runOps_inv (ops : List Client.ClientOp) (s : Client.ClientState)
    (h : Client.Inv s) : Client.Inv (Client.runOps ops s) := by
  induction ops generalizing s with
  | nil => exact h
  | cons op ops ih => exact ih _ (Client.applyOp_inv s op h)

/-- Claim C6: at every reachable point of the client's execution,
`recentNotifications` contains only domain entries (never type
`"connected"` or `"pong"`) and holds at most 10 entries; appending a new
domain event to a full list of 10 keeps the new entry in front and drops
exactly the oldest (last) entry; and a housekeeping message leaves the
whole session state — `unreadCount` included — unchanged and renders
nothing. -/
theorem recent_notifications_invariant_spec
    (ops : List Client.ClientOp) (now : String) (settings : Client.Settings)
    (s1 s2 : Client.ClientState) (n m : Client.IncomingNotification)
    (hlen : s1.recentNotifications.length = Client.MAX_RECENT_NOTIFICATIONS)
    (hdom : Client.isHousekeeping n.type = false)
    (hhk : Client.isHousekeeping m.type = true) :
    Client.Inv (Client.runOps ops Client.initialState) ∧
    (Client.addRecentNotification now n s1).recentNotifications =
      Client.mkStored now n :: s1.recentNotifications.dropLast ∧
    Client.handleMessage now settings m s2 = (s2, false) := by
  refine ⟨Client.runOps_inv ops Client.initialState Client.initialState_inv, ?_, ?_⟩
  · simp only [Client.addRecentNotification, hdom, Bool.false_eq_true, if_false]
    have hfull : (Client.mkStored now n :: s1.recentNotifications).length >
        Client.MAX_RECENT_NOTIFICATIONS := by
      simp only [List.length_cons, hlen]
      omega
    rw [if_pos hfull]
    have hne : s1.recentNotifications ≠ [] := by
      intro hnil
      rw [hnil] at hlen
      simp [Client.MAX_RECENT_NOTIFICATIONS] at hlen
    exact List.dropLast_cons_of_ne_nil hne
  · simp [Client.handleMessage, hhk]

/-- Witness for C6: a concrete run (a housekeeping message, a domain
event, a click), a full 10-entry list receiving a new event, and a pong
arriving at the initial state. -/
theorem recent_notifications_invariant_spec_witness :
    (Client.ClientState.mk false 1000
        (List.replicate 10 ⟨"stop", none, none, "T"⟩) 0 none).recentNotifications.length =
      Client.MAX_RECENT_NOTIFICATIONS ∧
    Client.isHousekeeping "permission_prompt" = false ∧
    Client.isHousekeeping "pong" = true ∧
    (Client.Inv
      (Client.runOps
        [.message "T0" Client.DEFAULT_SETTINGS ⟨"connected", some "hi", none⟩,
         .message "T1" Client.DEFAULT_SETTINGS ⟨"stop", none, none⟩, .click]
        Client.initialState) ∧
    (Client.addRecentNotification "T2" ⟨"permission_prompt", none, none⟩
        (Client.ClientState.mk false 1000
          (List.replicate 10 ⟨"stop", none, none, "T"⟩) 0 none)).recentNotifications =
      Client.mkStored "T2" ⟨"permission_prompt", none, none⟩ ::
        (Client.ClientState.mk false 1000
          (List.replicate 10 ⟨"stop", none, none, "T"⟩) 0 none).recentNotifications.dropLast ∧
    Client.handleMessage "T2" Client.DEFAULT_SETTINGS ⟨"pong", none, none⟩
        Client.initialState = (Client.initialState, false)) :=
  ⟨by decide, by decide, by decide,
    recent_notifications_invariant_spec
      [.message "T0" Client.DEFAULT_SETTINGS ⟨"connected", some "hi", none⟩,
       .message "T1" Client.DEFAULT_SETTINGS ⟨"stop", none, none⟩, .click]
      "T2" Client.DEFAULT_SETTINGS
      (Client.ClientState.mk false 1000
        (List.replicate 10 ⟨"stop", none, none, "T"⟩) 0 none)
      Client.initialState
      ⟨"permission_prompt", none, none⟩ ⟨"pong", none, none⟩
      (by decide) (by decide) (by decide)⟩

end ClaudeNotify
